import Mathlib

/-
Shallow embedding of `src/hyper-model/hypermodel/hml/hml_container_op.py`:
the operation-registration / argument-binding mechanism of the hyper-model
repository, together with the process-wide pipeline activation pointer.
-/

namespace HyperModel

/-- A Python value appearing as a literal keyword argument.  Python `str(value)`
is modelled by `PyVal.toPyString`. -/
inductive PyVal where
  | str (s : String)
  | int (n : Int)
  | bool (b : Bool)
deriving DecidableEq

/-- Python `str(value)` on the modelled values: strings are unchanged, integers
print in decimal, booleans print as `True` / `False`. -/
def PyVal.toPyString : PyVal → String
  | .str s => s
  | .int n => toString n
  | .bool b => if b then "True" else "False"

/-- `kfp.dsl.PipelineParam`: a named parameter, optionally carrying the name of
the operation that produces it (`op_name=`) and/or a literal value (`value=`).
Only the constructor forms used by `hml_container_op.py` matter here. -/
structure PipelineParam where
  name : String
  opName : Option String
  value : Option PyVal
deriving DecidableEq

/-- The classification of a keyword-argument value performed by
`HmlContainerOp.__init__` via `isinstance` checks: a `dsl.PipelineParam`,
a `dsl.ContainerOp` (of which only `.name` is read), or anything else
(treated as a literal). -/
inductive InputValue where
  | param (p : PipelineParam)
  | opOutput (srcOpName : String)
  | literal (v : PyVal)
deriving DecidableEq

/-- One element of `self.arguments`.  The Python list is `List[str]` by
annotation, but the `dsl.PipelineParam` branch appends the parameter object
itself, so an element is either a plain string or a `PipelineParam`. -/
inductive ArgToken where
  | str (s : String)
  | param (p : PipelineParam)
deriving DecidableEq

/-- The templated cross-step reference emitted for an input that is another
operation's output: `"\x7b\x7btasks.%s.outputs.parameters.%s\x7d\x7d" % (input_op_name, param_name)`. -/
def taskOutputRef (inputOpName paramName : String) : String :=
  "\x7b\x7btasks." ++ inputOpName ++ ".outputs.parameters." ++ paramName ++ "\x7d\x7d"

/-- The templated placeholder emitted for a literal input:
`"\x7b\x7binputs.parameters.%s\x7d\x7d" % param_name`. -/
def inputParamRef (paramName : String) : String :=
  "\x7b\x7binputs.parameters." ++ paramName ++ "\x7d\x7d"

/-- One iteration of the `for param_name in kwargs` loop of
`HmlContainerOp.__init__`: the pair of tokens appended to `self.arguments`
and the `PipelineParam` appended to `self.inputs`, for one keyword argument.
`sanitize` is `hypermodel.utilities.k8s.sanitize_k8s_name` (external to the
provided sources), kept abstract. -/
def bindKwarg (sanitize : String → String) (paramName : String) :
    InputValue → List ArgToken × PipelineParam
  | .param p =>
      ([.str ("--" ++ paramName), .param p], p)
  | .opOutput srcOpName =>
      let inputOpName := sanitize srcOpName
      ([.str ("--" ++ paramName), .str (taskOutputRef inputOpName paramName)],
       ⟨paramName, some inputOpName, none⟩)
  | .literal v =>
      ([.str ("--" ++ paramName), .str (inputParamRef paramName)],
       ⟨paramName, none, some v⟩)

/-- The whole `for param_name in kwargs` loop: starting from the already
accumulated `arguments` and `inputs`, process the remaining keyword arguments
in iteration order (Python dict iteration order is insertion order, modelled
by the list order). -/
def bindAll (sanitize : String → String) (kwargs : List (String × InputValue))
    (arguments : List ArgToken) (inputs : List PipelineParam) :
    List ArgToken × List PipelineParam :=
  match kwargs with
  | [] => (arguments, inputs)
  | (paramName, v) :: rest =>
      let b := bindKwarg sanitize paramName v
      bindAll sanitize rest (arguments ++ b.1) (inputs ++ [b.2])

/-- `kubernetes.client.models.V1EnvVar`. -/
structure V1EnvVar where
  name : String
  value : String
deriving DecidableEq

/-- The source of a `V1Volume` as used by the fluent methods: a secret volume
source or an empty-dir volume source. -/
inductive VolumeSource where
  | secret (secretName : String)
  | emptyDir
deriving DecidableEq

/-- `k8s_client.V1Volume`, restricted to the fields the code sets. -/
structure V1Volume where
  name : String
  source : VolumeSource
deriving DecidableEq

/-- `k8s_client.V1VolumeMount`. -/
structure V1VolumeMount where
  name : String
  mountPath : String
deriving DecidableEq

/-- The container record inside a `dsl.ContainerOp` (`self.op.container`). -/
structure K8sContainer where
  image : String
  env : List V1EnvVar
deriving DecidableEq

/-- `kfp.dsl.ContainerOp`, restricted to the fields `hml_container_op.py`
reads or writes: name, container (image, env vars), command, arguments,
volumes, volume mounts, and the `inputs` attribute assigned after
construction. -/
structure DslContainerOp where
  name : String
  container : K8sContainer
  command : String
  arguments : List ArgToken
  volumes : List V1Volume
  volumeMounts : List V1VolumeMount
  inputs : List PipelineParam
deriving DecidableEq

/-- `ContainerOp.add_volume`: appends a volume. -/
def DslContainerOp.addVolume (op : DslContainerOp) (v : V1Volume) : DslContainerOp :=
  { op with volumes := op.volumes ++ [v] }

/-- `ContainerOp.add_volume_mount`: appends a volume mount. -/
def DslContainerOp.addVolumeMount (op : DslContainerOp) (m : V1VolumeMount) : DslContainerOp :=
  { op with volumeMounts := op.volumeMounts ++ [m] }

/-- `Container.add_env_variable`: appends an environment variable. -/
def K8sContainer.addEnvVariable (c : K8sContainer) (e : V1EnvVar) : K8sContainer :=
  { c with env := c.env ++ [e] }

/-- `HmlContainerOp`: the operation produced by registration.  `instanceId`
models Python object identity (each registration creates a fresh object);
the remaining fields are the attributes set by `__init__`. -/
structure HmlContainerOp where
  instanceId : Nat
  name : String
  k8sName : String
  kwargs : List (String × InputValue)
  pipelineName : String
  arguments : List ArgToken
  inputs : List PipelineParam
  op : DslContainerOp
  cliCommandName : String
deriving DecidableEq

/-- `HmlPipeline`, as used by `hml_container_op.py`: a name, a container image
url, a package entrypoint command, and the ordered list of registered
operations. -/
structure HmlPipeline where
  name : String
  imageUrl : String
  packageEntrypoint : String
  ops : List HmlContainerOp
deriving DecidableEq

/-- Modelled from the spec: `HmlPipeline._add_op` is defined in
`hml_pipeline.py`, which is not among the provided sources; the spec states
that a pipeline "holds an ordered list of registered operations" and that
"registration always appends to the pipeline's operation list". -/
def HmlPipeline.addOp (p : HmlPipeline) (op : HmlContainerOp) : HmlPipeline :=
  { p with ops := p.ops ++ [op] }

/-- The body of `HmlContainerOp.__init__` when a pipeline is active: build the
argument list `["pipelines", pipeline.name, func.__name__]` followed by the
bound pairs, collect the bound inputs, build the `dsl.ContainerOp` (image and
command taken from the pipeline), register the click command, and append the
new operation to the pipeline via `_add_op`.  Returns the fresh operation and
the updated pipeline. -/
def HmlContainerOp.make (sanitize : String → String) (pipeline : HmlPipeline)
    (funcName : String) (kwargs : List (String × InputValue)) :
    HmlContainerOp × HmlPipeline :=
  let base : List ArgToken := [.str "pipelines", .str pipeline.name, .str funcName]
  let bound := bindAll sanitize kwargs base []
  let hmlOp : HmlContainerOp :=
    { instanceId := pipeline.ops.length
      name := funcName
      k8sName := sanitize funcName
      kwargs := kwargs
      pipelineName := pipeline.name
      arguments := bound.1
      inputs := bound.2
      op :=
        { name := funcName
          container := { image := pipeline.imageUrl, env := [] }
          command := pipeline.packageEntrypoint
          arguments := bound.1
          volumes := []
          volumeMounts := []
          inputs := bound.2 }
      cliCommandName := funcName }
  (hmlOp, pipeline.addOp hmlOp)

/-- Severity of a `logging` call. -/
inductive LogLevel where
  | info
  | error
deriving DecidableEq

/-- One emitted log record. -/
structure LogEntry where
  level : LogLevel
  message : String
deriving DecidableEq

/-- A raised Python exception, carrying its message. -/
inductive PyError where
  | attributeError (msg : String)
deriving DecidableEq

/-- The `logging.info` message emitted for one keyword argument inside the
binding loop. -/
def bindLogMessage (sanitize : String → String) (funcName paramName : String) :
    InputValue → String
  | .param p =>
      "Binding input for " ++ funcName ++ " -> " ++ paramName ++
        ": from PipelineParam (" ++ p.name ++ ")"
  | .opOutput srcOpName =>
      "Binding input for " ++ funcName ++ " -> " ++ paramName ++
        ": from (" ++ sanitize srcOpName ++ ")"
  | .literal v =>
      "Binding input value for " ++ funcName ++ " -> " ++ paramName ++
        ": " ++ v.toPyString

/-- `HmlContainerOp.__init__` including the no-active-pipeline path: if
`_current_pipeline` is `None`, `logging.error` is called and the constructor
then dereferences `self.pipeline.name` on `None`, raising an
`AttributeError`; no operation is produced and no pipeline is mutated.
Otherwise the info logs of the binding loop are emitted and `make` runs. -/
def HmlContainerOp.create (sanitize : String → String)
    (currentPipeline : Option HmlPipeline)
    (funcName : String) (kwargs : List (String × InputValue)) :
    List LogEntry × Except PyError (HmlContainerOp × HmlPipeline) :=
  match currentPipeline with
  | none =>
      ([⟨.error, "Unable to create HmlContainerOp, the `_pipeline_enter` function has not been called"⟩],
       .error (.attributeError "NoneType object has no attribute name"))
  | some pipeline =>
      (kwargs.map fun kv => ⟨.info, bindLogMessage sanitize funcName kv.1 kv.2⟩,
       .ok (HmlContainerOp.make sanitize pipeline funcName kwargs))

/-- The two module-level globals `_current_pipeline` and `_old_pipeline`,
both initialised to `None`. -/
structure ActivationState (α : Type) where
  current : Option α
  old : Option α
deriving DecidableEq

/-- `_pipeline_enter(pipeline)`: save the current pointer into the single
`_old_pipeline` slot and install the new pipeline as current. -/
def pipelineEnter {α : Type} (pipeline : α) (s : ActivationState α) :
    ActivationState α :=
  { current := some pipeline, old := s.current }

/-- `_pipeline_exit()`: logs `_current_pipeline.name` (an `AttributeError`,
modelled as `none`, if no pipeline is current) and then copies
`_old_pipeline` into `_current_pipeline`; `_old_pipeline` is left unchanged. -/
def pipelineExit {α : Type} (s : ActivationState α) :
    Option (ActivationState α) :=
  match s.current with
  | none => none
  | some _ => some { current := s.old, old := s.old }

/-- `with_image`: set `self.op.container.image` and return `self`. -/
def HmlContainerOp.withImage (self : HmlContainerOp)
    (containerImageUrl : String) : HmlContainerOp :=
  { self with op := { self.op with
      container := { self.op.container with image := containerImageUrl } } }

/-- `with_command`: overwrite `self.op.command` and `self.op.arguments`
wholesale and return `self`. -/
def HmlContainerOp.withCommand (self : HmlContainerOp)
    (containerCommand : String) (containerArgs : List String) : HmlContainerOp :=
  { self with op := { self.op with
      command := containerCommand
      arguments := containerArgs.map ArgToken.str } }

/-- `with_secret`: add a secret-sourced volume named after the secret and a
mount for it at `mount_path`, returning `self`. -/
def HmlContainerOp.withSecret (self : HmlContainerOp)
    (secretName mountPath : String) : HmlContainerOp :=
  let volumeName := secretName
  let newOp := (self.op.addVolume ⟨volumeName, .secret secretName⟩).addVolumeMount ⟨volumeName, mountPath⟩
  { self with op := newOp }

/-- `with_gcp_auth`: apply `use_gcp_secret(secret_name)` (external `kfp.gcp`
code, kept abstract as `useGcpSecret`) to `self.op` and return `self`. -/
def HmlContainerOp.withGcpAuth
    (useGcpSecret : String → DslContainerOp → DslContainerOp)
    (self : HmlContainerOp) (secretName : String) : HmlContainerOp :=
  { self with op := useGcpSecret secretName self.op }

/-- `with_env`: append `V1EnvVar(name=variable_name, value=str(value))` to the
container's environment variables and return `self`. -/
def HmlContainerOp.withEnv (self : HmlContainerOp)
    (variableName : String) (value : PyVal) : HmlContainerOp :=
  { self with op := { self.op with
      container := self.op.container.addEnvVariable
        ⟨variableName, value.toPyString⟩ } }

/-- `with_empty_dir`: add an empty-dir volume and a mount for it at
`mount_path`, returning `self`. -/
def HmlContainerOp.withEmptyDir (self : HmlContainerOp)
    (name mountPath : String) : HmlContainerOp :=
  { self with op :=
      (self.op.addVolume ⟨name, .emptyDir⟩).addVolumeMount ⟨name, mountPath⟩ }

/-- The second token of the pair emitted for one keyword argument: the
parameter object itself for a `dsl.PipelineParam`, the task-output reference
for a `dsl.ContainerOp`, and the input-parameter placeholder for a literal. -/
def valueToken (sanitize : String → String) (paramName : String) :
    InputValue → ArgToken
  | .param p => .param p
  | .opOutput srcOpName => .str (taskOutputRef (sanitize srcOpName) paramName)
  | .literal _ => .str (inputParamRef paramName)

/-
Structural lemmas about the binding loop, shared by the claim theorems below.
-/

/-- The accumulating binding loop equals the concatenation of the per-argument
two-token blocks (for the argument list) and the list of per-argument bound
inputs, in iteration order. -/
theorem bindAll_append (sanitize : String → String)
    (kwargs : List (String × InputValue))
    (arguments : List ArgToken) (inputs : List PipelineParam) :
    bindAll sanitize kwargs arguments inputs =
      (arguments ++ (kwargs.map fun kv => (bindKwarg sanitize kv.1 kv.2).1).flatten,
       inputs ++ kwargs.map fun kv => (bindKwarg sanitize kv.1 kv.2).2) := by
  induction kwargs generalizing arguments inputs with
  | nil => simp [bindAll]
  | cons hd tl ih =>
      obtain ⟨n, v⟩ := hd
      simp [bindAll, ih, List.append_assoc]

/-- Each keyword argument contributes exactly two tokens to the argument
list, whichever way it is classified. -/
theorem bindKwarg_fst_length (sanitize : String → String) (paramName : String)
    (v : InputValue) : (bindKwarg sanitize paramName v).1.length = 2 := by
  cases v <;> rfl

/-- The argument list computed by registration: the base triple followed by
the per-argument blocks in iteration order. -/
theorem make_arguments (sanitize : String → String) (pipeline : HmlPipeline)
    (funcName : String) (kwargs : List (String × InputValue)) :
    (HmlContainerOp.make sanitize pipeline funcName kwargs).1.arguments =
      [.str "pipelines", .str pipeline.name, .str funcName] ++
        (kwargs.map fun kv => (bindKwarg sanitize kv.1 kv.2).1).flatten := by
  simp [HmlContainerOp.make, bindAll_append]

/-- The bound-input list computed by registration: one `PipelineParam` per
keyword argument, in iteration order. -/
theorem make_inputs (sanitize : String → String) (pipeline : HmlPipeline)
    (funcName : String) (kwargs : List (String × InputValue)) :
    (HmlContainerOp.make sanitize pipeline funcName kwargs).1.inputs =
      kwargs.map fun kv => (bindKwarg sanitize kv.1 kv.2).2 := by
  simp [HmlContainerOp.make, bindAll_append]

/-- Each per-argument block is the flag token `--<param>` followed by the
classified value token. -/
theorem bindKwarg_fst_eq (sanitize : String → String) (paramName : String)
    (v : InputValue) :
    (bindKwarg sanitize paramName v).1 =
      [.str ("--" ++ paramName), valueToken sanitize paramName v] := by
  cases v <;> rfl

/-- The flattened per-argument blocks of a registration have twice as many
tokens as there are keyword arguments. -/
theorem blocks_flatten_length (sanitize : String → String)
    (kwargs : List (String × InputValue)) :
    ((kwargs.map fun kv => (bindKwarg sanitize kv.1 kv.2).1).flatten).length =
      2 * kwargs.length := by
  induction kwargs with
  | nil => rfl
  | cons hd tl ih =>
      simp only [List.map_cons, List.flatten_cons, List.length_append,
        List.length_cons, bindKwarg_fst_length, ih]
      omega

/-
Claim theorems.
-/

/-- Claim C1: for every registration of a function with a keyword-argument
mapping of n entries, the computed argument list equals
`["pipelines", <pipeline-name>, <operation-name>]` followed by the n
per-parameter pairs (`--<param>` then the classified value token), and the
pairs appear as the concatenation of the per-entry blocks in exactly the
mapping's insertion order, so reordering the mapping reorders the emitted
arguments correspondingly. -/
theorem arguments_base_then_pairs_in_insertion_order
    (sanitize : String → String) (pipeline : HmlPipeline) (funcName : String)
    (kwargs : List (String × InputValue)) :
    (HmlContainerOp.make sanitize pipeline funcName kwargs).1.arguments =
      [.str "pipelines", .str pipeline.name, .str funcName] ++
        (kwargs.map fun kv =>
          [ArgToken.str ("--" ++ kv.1), valueToken sanitize kv.1 kv.2]).flatten := by
  simp [make_arguments, bindKwarg_fst_eq]

/-- Claim C2: for every keyword argument whose value is the output handle of
a prior operation, registration appends the pair `--<param>` followed by the
exact string `{{tasks.<sanitized-source-name>.outputs.parameters.<param>}}`,
where the sanitized source name is the sanitizer applied to the source
operation's name, wherever the entry occurs in the mapping. -/
theorem op_output_emits_task_reference
    (sanitize : String → String) (pipeline : HmlPipeline) (funcName : String)
    (pre post : List (String × InputValue)) (paramName srcOpName : String) :
    (HmlContainerOp.make sanitize pipeline funcName
        (pre ++ (paramName, InputValue.opOutput srcOpName) :: post)).1.arguments =
      [.str "pipelines", .str pipeline.name, .str funcName] ++
        (pre.map fun kv => (bindKwarg sanitize kv.1 kv.2).1).flatten ++
        [.str ("--" ++ paramName),
         .str ("\x7b\x7btasks." ++ sanitize srcOpName ++
           ".outputs.parameters." ++ paramName ++ "\x7d\x7d")] ++
        (post.map fun kv => (bindKwarg sanitize kv.1 kv.2).1).flatten := by
  simp [make_arguments, bindKwarg, taskOutputRef, List.append_assoc]

/-- Claim C3: for every keyword argument whose value is a literal (neither a
pipeline parameter nor another operation's output), registration appends the
pair `--<name>` followed by the exact string `{{inputs.parameters.<name>}}`,
and records in the operation's bound inputs, at the corresponding position, a
new pipeline-level parameter with that name carrying the literal value. -/
theorem literal_emits_placeholder_and_registers_param
    (sanitize : String → String) (pipeline : HmlPipeline) (funcName : String)
    (pre post : List (String × InputValue)) (paramName : String) (v : PyVal) :
    (HmlContainerOp.make sanitize pipeline funcName
        (pre ++ (paramName, InputValue.literal v) :: post)).1.arguments =
      [.str "pipelines", .str pipeline.name, .str funcName] ++
        (pre.map fun kv => (bindKwarg sanitize kv.1 kv.2).1).flatten ++
        [.str ("--" ++ paramName),
         .str ("\x7b\x7binputs.parameters." ++ paramName ++ "\x7d\x7d")] ++
        (post.map fun kv => (bindKwarg sanitize kv.1 kv.2).1).flatten ∧
    (HmlContainerOp.make sanitize pipeline funcName
        (pre ++ (paramName, InputValue.literal v) :: post)).1.inputs =
      (pre.map fun kv => (bindKwarg sanitize kv.1 kv.2).2) ++
        ⟨paramName, none, some v⟩ ::
          (post.map fun kv => (bindKwarg sanitize kv.1 kv.2).2) := by
  constructor
  · simp [make_arguments, bindKwarg, inputParamRef, List.append_assoc]
  · simp [make_inputs, bindKwarg]

/-- Claim C4: when no pipeline is active at registration time (the current
pipeline pointer is unset), registration emits an error-level log naming the
missing `_pipeline_enter` call and fails with an exception raised by
dereferencing the `None` owner; no operation is ever produced. -/
theorem no_active_pipeline_logs_and_raises (sanitize : String → String)
    (funcName : String) (kwargs : List (String × InputValue)) :
    (HmlContainerOp.create sanitize none funcName kwargs).1 =
      [⟨LogLevel.error,
        "Unable to create HmlContainerOp, the `_pipeline_enter` function has not been called"⟩] ∧
    ∃ err, (HmlContainerOp.create sanitize none funcName kwargs).2 =
      Except.error err :=
  ⟨rfl, ⟨.attributeError "NoneType object has no attribute name", rfl⟩⟩

/-- Claim C5: for every keyword argument whose value denotes a pipeline-level
parameter, registration appends `--<param>` followed by the parameter value
itself, appended as-is as the value token, and records in the bound inputs,
at the corresponding position, that very parameter (its identity is
preserved). -/
theorem pipeline_param_appended_as_is
    (sanitize : String → String) (pipeline : HmlPipeline) (funcName : String)
    (pre post : List (String × InputValue)) (paramName : String)
    (p : PipelineParam) :
    (HmlContainerOp.make sanitize pipeline funcName
        (pre ++ (paramName, InputValue.param p) :: post)).1.arguments =
      [.str "pipelines", .str pipeline.name, .str funcName] ++
        (pre.map fun kv => (bindKwarg sanitize kv.1 kv.2).1).flatten ++
        [.str ("--" ++ paramName), .param p] ++
        (post.map fun kv => (bindKwarg sanitize kv.1 kv.2).1).flatten ∧
    (HmlContainerOp.make sanitize pipeline funcName
        (pre ++ (paramName, InputValue.param p) :: post)).1.inputs =
      (pre.map fun kv => (bindKwarg sanitize kv.1 kv.2).2) ++
        p :: (post.map fun kv => (bindKwarg sanitize kv.1 kv.2).2) := by
  constructor
  · simp [make_arguments, bindKwarg, List.append_assoc]
  · simp [make_inputs, bindKwarg]

/-- Claim C6: the activation pointer is a depth-one save/restore.  One
enter/exit round trip restores the current pointer; after `enter A`,
`enter B`, `exit`, `exit`, the current pointer is `some A` (both after the
first and after the second exit), so when the pre-A current pointer differed
from `some A`, the second exit does not restore it: the grandparent
reference is lost. -/
theorem activation_is_depth_one_save_restore (α : Type) (A B : α)
    (s : ActivationState α) :
    pipelineExit (pipelineEnter A s) = some ⟨s.current, s.current⟩ ∧
    pipelineExit (pipelineEnter B (pipelineEnter A s)) = some ⟨some A, some A⟩ ∧
    (pipelineExit (pipelineEnter B (pipelineEnter A s))).bind pipelineExit =
      some ⟨some A, some A⟩ ∧
    (s.current ≠ some A →
      Option.map (fun t => t.current)
          ((pipelineExit (pipelineEnter B (pipelineEnter A s))).bind pipelineExit) ≠
        some s.current) := by
  refine ⟨rfl, rfl, rfl, fun h hEq => h ?_⟩
  exact (Option.some.inj hEq).symm

/-- Concrete instantiation of the activation claim: starting from the unset
state over `Nat`, after `enter 1`, `enter 2`, `exit`, `exit` the current
pointer is not restored to its original unset value. -/
theorem activation_is_depth_one_save_restore_witness :
    Option.map (fun t => t.current)
        ((pipelineExit (pipelineEnter 2 (pipelineEnter 1
            (⟨none, none⟩ : ActivationState Nat)))).bind pipelineExit) ≠
      some (ActivationState.current (⟨none, none⟩ : ActivationState Nat)) :=
  (activation_is_depth_one_save_restore Nat 1 2 ⟨none, none⟩).2.2.2 (by decide)

/-- Claim C7: registration is not idempotent.  Registering the same function
with the same keyword arguments twice within one active pipeline appends two
operations to the pipeline's operation list, and the two appended operations
are distinct instances (each registration creates a fresh object). -/
theorem registration_appends_two_distinct_ops (sanitize : String → String)
    (pipeline : HmlPipeline) (funcName : String)
    (kwargs : List (String × InputValue)) :
    (HmlContainerOp.make sanitize
        (HmlContainerOp.make sanitize pipeline funcName kwargs).2
        funcName kwargs).2.ops =
      pipeline.ops ++
        [(HmlContainerOp.make sanitize pipeline funcName kwargs).1,
         (HmlContainerOp.make sanitize
            (HmlContainerOp.make sanitize pipeline funcName kwargs).2
            funcName kwargs).1] ∧
    (HmlContainerOp.make sanitize pipeline funcName kwargs).1 ≠
      (HmlContainerOp.make sanitize
          (HmlContainerOp.make sanitize pipeline funcName kwargs).2
          funcName kwargs).1 := by
  constructor
  · simp [HmlContainerOp.make, HmlPipeline.addOp]
  · intro h
    have hid := congrArg HmlContainerOp.instanceId h
    simp [HmlContainerOp.make, HmlPipeline.addOp] at hid

/-- Concrete instantiation of the non-idempotence claim: registering `train`
twice on an initially empty pipeline yields two distinct operations. -/
theorem registration_appends_two_distinct_ops_witness :
    (HmlContainerOp.make (fun s => s) ⟨"demo", "img", "entry", []⟩
        "train" []).1 ≠
      (HmlContainerOp.make (fun s => s)
          (HmlContainerOp.make (fun s => s) ⟨"demo", "img", "entry", []⟩
            "train" []).2
          "train" []).1 :=
  (registration_appends_two_distinct_ops (fun s => s)
    ⟨"demo", "img", "entry", []⟩ "train" []).2

/-- Claim C8: the environment-variable configuration call appends the pair
(name, `str(value)`) to the operation's container environment — a string
value is bound verbatim, a non-string value is converted to its string form
first — and returns the same operation instance, all other attributes
unchanged. -/
theorem with_env_binds_string_form (op : HmlContainerOp)
    (variableName : String) (value : PyVal) :
    (op.withEnv variableName value).op.container.env =
      op.op.container.env ++ [⟨variableName, value.toPyString⟩] ∧
    (∀ s, PyVal.toPyString (PyVal.str s) = s) ∧
    (op.withEnv variableName value).instanceId = op.instanceId ∧
    (op.withEnv variableName value).name = op.name ∧
    (op.withEnv variableName value).arguments = op.arguments ∧
    (op.withEnv variableName value).op.container.image = op.op.container.image ∧
    (op.withEnv variableName value).op.command = op.op.command :=
  ⟨rfl, fun _ => rfl, rfl, rfl, rfl, rfl, rfl⟩

/-- Claim C9: every fluent configuration operation — set image, override
command, mount secret, bind cloud credentials, set environment variable,
mount scratch volume — returns the same operation instance it was called on
(its identity and name are preserved, and the methods are total, performing
no validation), so calls can be chained. -/
theorem fluent_ops_return_same_instance (op : HmlContainerOp)
    (containerImageUrl containerCommand : String) (containerArgs : List String)
    (secretName mountPath : String)
    (useGcpSecret : String → DslContainerOp → DslContainerOp)
    (gcpSecretName variableName : String) (value : PyVal)
    (emptyDirName emptyDirPath : String) :
    (op.withImage containerImageUrl).instanceId = op.instanceId ∧
    (op.withCommand containerCommand containerArgs).instanceId = op.instanceId ∧
    (op.withSecret secretName mountPath).instanceId = op.instanceId ∧
    (HmlContainerOp.withGcpAuth useGcpSecret op gcpSecretName).instanceId =
      op.instanceId ∧
    (op.withEnv variableName value).instanceId = op.instanceId ∧
    (op.withEmptyDir emptyDirName emptyDirPath).instanceId = op.instanceId ∧
    ((((op.withImage containerImageUrl).withSecret secretName
        mountPath).withEnv variableName value).withEmptyDir emptyDirName
        emptyDirPath).instanceId = op.instanceId ∧
    (op.withImage containerImageUrl).name = op.name ∧
    (op.withCommand containerCommand containerArgs).name = op.name ∧
    (op.withSecret secretName mountPath).name = op.name ∧
    (HmlContainerOp.withGcpAuth useGcpSecret op gcpSecretName).name = op.name ∧
    (op.withEnv variableName value).name = op.name ∧
    (op.withEmptyDir emptyDirName emptyDirPath).name = op.name :=
  ⟨rfl, rfl, rfl, rfl, rfl, rfl, rfl, rfl, rfl, rfl, rfl, rfl, rfl⟩

/-- Claim C10: for every operation created from n keyword arguments,
regardless of how each argument is classified, the computed argument list
has exactly 3 + 2n elements and the bound-input list has exactly n elements:
each keyword argument contributes one flag token, one value token, and one
bound input. -/
theorem each_kwarg_two_tokens_one_input (sanitize : String → String)
    (pipeline : HmlPipeline) (funcName : String)
    (kwargs : List (String × InputValue)) :
    (HmlContainerOp.make sanitize pipeline funcName kwargs).1.arguments.length =
      3 + 2 * kwargs.length ∧
    (HmlContainerOp.make sanitize pipeline funcName kwargs).1.inputs.length =
      kwargs.length := by
  constructor
  · rw [make_arguments, List.length_append, blocks_flatten_length]
    rfl
  · rw [make_inputs]
    simp

end HyperModel
